import Mathlib

/-!
Verification of the runtime ABI bridge of the evmjit just-in-time compiler
(`libevmjit/Runtime.cpp`).  The file shallowly embeds:

* the value-marshalling helpers (`eth2llvm`, `llvm2eth`, `fromAddress`),
* the fixed runtime layout produced by `RuntimeData::getType`,
* the host-side `Runtime` object (constructor, `set`, `getGas`,
  `getReturnData`),
* the code-generation side `RuntimeManager` as a small instruction-emission
  model over an LLVM-like builder state (`getRuntimePtr`, `getPtr`, `get`,
  `set`, `registerReturnData`, `raiseException`, the opcode switch,
  `getCallData`, `getCode`, `getJmpBuf`).

Machine integers are modelled as `Nat` with explicit `% 2^w` where the source
truncates; `assert` is modelled as the fatal abort path (`Except.error`),
which is its semantics in an assertions-enabled build.
-/

namespace EvmjitRuntime

/-- The number of bits of the host `size_t`, to which `getReturnData` in the
source truncates the 256-bit offset and size via `static_cast<size_t>`.
Modelled as a 64-bit host. -/
def sizeTBits : Nat := 64

/-- `2 ^ 64`, the modulus of the host `size_t` truncation. -/
def sizeTMod : Nat := 2 ^ sizeTBits

/-- The in-layout representation of one 256-bit word: four 64-bit limbs,
least significant first.  Modelled from the spec: the `i256` word type and
the marshalling helpers live in headers outside `src/`; the spec describes
them as a bit-exact conversion between the VM's 256-bit integers and the
in-memory word representation. -/
structure I256 where
  a : Nat
  b : Nat
  c : Nat
  d : Nat
deriving DecidableEq, Repr

/-- Modelled from the spec: `eth2llvm` (a.k.a. `toLayoutWord`) converts the
VM's 256-bit integer into the in-memory word representation; here the value
is decomposed into four 64-bit limbs, least significant first. -/
def eth2llvm (v : Nat) : I256 :=
  { a := v % 2 ^ 64
    b := v / 2 ^ 64 % 2 ^ 64
    c := v / 2 ^ 128 % 2 ^ 64
    d := v / 2 ^ 192 % 2 ^ 64 }

/-- Modelled from the spec: `llvm2eth` (a.k.a. `fromLayoutWord`) recomposes
the 256-bit integer from the four limbs of the in-memory word. -/
def llvm2eth (w : I256) : Nat :=
  w.a + 2 ^ 64 * w.b + 2 ^ 128 * w.c + 2 ^ 192 * w.d

/-- Modelled from the spec: `fromAddress` zero-extends a 160-bit account
identifier into a 256-bit word; numerically the value is unchanged (the
definition is in a header outside `src/`; the use sites are
`Runtime.cpp:64-66,71`). -/
def fromAddress (addr : Nat) : Nat := addr % 2 ^ 256

/-- The word-field indices of `RuntimeData` (`RuntimeData::Index`).  The
enumeration itself lives in `Runtime.h`, outside `src/`; modelled from the
spec, which fixes the order: gas, address, caller, origin, call value,
call-data size, gas price, previous-block hash, coinbase, timestamp, number,
difficulty, gas limit, code size, then the two internal return-data slots. -/
inductive RIdx where
  | Gas | Address | Caller | Origin | CallValue | CallDataSize
  | GasPrice | PrevHash | CoinBase | TimeStamp | Number | Difficulty
  | GasLimit | CodeSize | ReturnDataOffset | ReturnDataSize
deriving DecidableEq, Repr

/-- The numeric value of a `RuntimeData::Index` enumerator (its position). -/
def RIdx.val : RIdx → Nat
  | .Gas => 0 | .Address => 1 | .Caller => 2 | .Origin => 3
  | .CallValue => 4 | .CallDataSize => 5 | .GasPrice => 6 | .PrevHash => 7
  | .CoinBase => 8 | .TimeStamp => 9 | .Number => 10 | .Difficulty => 11
  | .GasLimit => 12 | .CodeSize => 13 | .ReturnDataOffset => 14
  | .ReturnDataSize => 15

/-- `RuntimeData::_size`: the number of word slots in the layout's array. -/
def rdSize : Nat := 16

/-- One element type of the layout struct built by `RuntimeData::getType`:
either the array of `n` 256-bit words or a byte pointer. -/
inductive SlotTy where
  | wordArr (n : Nat)
  | bytePtr
deriving DecidableEq, Repr

/-- The element list of the struct created by `RuntimeData::getType`
(`Runtime.cpp:23-29`): `{ [n x Word], BytePtr, BytePtr, BytePtr }`. -/
def runtimeTypeFields (n : Nat) : List SlotTy :=
  [.wordArr n, .bytePtr, .bytePtr, .bytePtr]

/-- Byte size of a layout slot, for pointer width `P` bytes; a 256-bit word
occupies 32 bytes. -/
def slotSize (P : Nat) : SlotTy → Nat
  | .wordArr n => n * 32
  | .bytePtr => P

/-- Byte offset of field `i` of a struct with the given element list. -/
def structOffset (P : Nat) (fields : List SlotTy) (i : Nat) : Nat :=
  ((fields.take i).map (slotSize P)).sum

/-- The fatal abort raised by a failed C `assert` (assertions-enabled
build). -/
inductive RTError where
  | assertionFailed
deriving DecidableEq, Repr

/-- Host-side `RuntimeData` (`Runtime.h`, mirrored by `getType`): the word
array plus the three trailing pointers.  Pointers are modelled as opaque
addresses (`Nat`). -/
structure RuntimeData where
  elems : RIdx → I256
  callData : Nat
  code : Nat
  jmpBuf : Nat

/-- Functional update of one word slot of `RuntimeData`. -/
def RuntimeData.setElem (d : RuntimeData) (i : RIdx) (v : I256) : RuntimeData :=
  { d with elems := fun j => if j = i then v else d.elems j }

/-- Modelled from the spec: the block-information part of the external
environment (`ExtVMFace` is in `libevm`, outside `src/`); only the
read-only query surface used by `Runtime::Runtime` is represented. -/
structure BlockInfo where
  hash : Nat
  coinbaseAddress : Nat
  timestamp : Nat
  number : Nat
  difficulty : Nat
  gasLimit : Nat

/-- Modelled from the spec: the external environment interface consumed
read-only by the constructor.  `dataPtr`/`codePtr` are the base addresses of
the call-data and code buffers (`_ext.data.data()`, `_ext.code.data()`);
`data`/`code` are the buffers' bytes, whose lengths give
`calldatasize`/`codesize`. -/
structure ExtVMFace where
  myAddress : Nat
  caller : Nat
  origin : Nat
  value : Nat
  gasPrice : Nat
  data : List Nat
  dataPtr : Nat
  code : List Nat
  codePtr : Nat
  previousBlock : BlockInfo
  currentBlock : BlockInfo

/-- Host-side `Runtime`: owns one `RuntimeData` and borrows the caller's
working memory buffer (`m_memory`, declared in `Runtime.h`, outside `src/`;
the spec says it is the caller-supplied working memory). -/
structure Runtime where
  m_data : RuntimeData
  m_memory : List Nat

/-- `Runtime::set` (`Runtime.cpp:82-85`): marshal the 256-bit value and
store it in the indexed word slot. -/
def Runtime.set (r : Runtime) (i : RIdx) (v : Nat) : Runtime :=
  { r with m_data := r.m_data.setElem i (eth2llvm v) }

/-- `Runtime::Runtime` (`Runtime.cpp:60-80`): populate the named word
fields from the environment, set the call-data and code base pointers and
the checkpoint handle.  `init` is the indeterminate pre-construction state
of `m_data` (the members the constructor does not write keep it); `mem` is
the borrowed working memory buffer. -/
def Runtime.construct (gas : Nat) (ext : ExtVMFace) (jmpBuf : Nat)
    (init : RuntimeData) (mem : List Nat) : Runtime :=
  let r : Runtime := { m_data := init, m_memory := mem }
  let r := r.set .Gas gas
  let r := r.set .Address (fromAddress ext.myAddress)
  let r := r.set .Caller (fromAddress ext.caller)
  let r := r.set .Origin (fromAddress ext.origin)
  let r := r.set .CallValue ext.value
  let r := r.set .CallDataSize ext.data.length
  let r := r.set .GasPrice ext.gasPrice
  let r := r.set .PrevHash ext.previousBlock.hash
  let r := r.set .CoinBase (fromAddress ext.currentBlock.coinbaseAddress)
  let r := r.set .TimeStamp ext.currentBlock.timestamp
  let r := r.set .Number ext.currentBlock.number
  let r := r.set .Difficulty ext.currentBlock.difficulty
  let r := r.set .GasLimit ext.currentBlock.gasLimit
  let r := r.set .CodeSize ext.code.length
  { r with m_data := { r.m_data with
      callData := ext.dataPtr
      code := ext.codePtr
      jmpBuf := jmpBuf } }

/-- `Runtime::getGas` (`Runtime.cpp:87-90`). -/
def Runtime.getGas (r : Runtime) : Nat :=
  llvm2eth (r.m_data.elems .Gas)

/-- `Runtime::getReturnData` (`Runtime.cpp:92-101`): the stored 256-bit
offset and size are truncated to `size_t` (`static_cast`, i.e. reduction
modulo `2 ^ 64`); then `assert(offset + size <= m_memory.size())` and the
view `[offset, offset + size)` of the working memory is returned.  The
failed assert is the fatal path (`Except.error`). -/
def Runtime.getReturnData (r : Runtime) : Except RTError (List Nat) :=
  let offset := llvm2eth (r.m_data.elems .ReturnDataOffset) % sizeTMod
  let size := llvm2eth (r.m_data.elems .ReturnDataSize) % sizeTMod
  if offset + size ≤ r.m_memory.length then
    .ok ((r.m_memory.drop offset).take size)
  else
    .error .assertionFailed

/-! ## Code-generation side: an LLVM-like emission model -/

/-- An LLVM value as seen by the emission code: a function argument, a
global variable, the result of an emitted instruction, an `i32` constant,
or a function reference. -/
inductive LValue where
  | arg (fnId : Nat) (idx : Nat)
  | globalRef (gid : Nat)
  | instrRef (iid : Nat)
  | constI32 (n : Nat)
  | funcRef (fid : Nat)
deriving DecidableEq, Repr

/-- The instructions `RuntimeManager` emits: loads, stores, element GEPs
(`CreateInBoundsGEP` with an index list), struct-field GEPs
(`CreateStructGEP`), and two-argument calls (`CreateCall2`). -/
inductive LInstr where
  | load (src : LValue)
  | store (val : LValue) (dst : LValue)
  | gep (base : LValue) (idxs : List Nat)
  | structGEP (base : LValue) (idx : Nat)
  | call2 (callee : LValue) (a1 : LValue) (a2 : LValue)
deriving DecidableEq, Repr

/-- Whether an emitted instruction is a call. -/
def LInstr.isCall : LInstr → Bool
  | .call2 _ _ _ => true
  | _ => false

/-- A function present in the module: its id, name tag, and whether it has
a body (`false` for an external declaration such as `longjmp`). -/
structure FuncDecl where
  fid : Nat
  fname : String
  defined : Bool
deriving DecidableEq, Repr

/-- The compilation unit: the global variables and functions created so
far. -/
structure LModule where
  globals : List Nat
  funcs : List FuncDecl
  nextGlobal : Nat
  nextFunc : Nat
deriving DecidableEq, Repr

/-- An empty compilation unit. -/
def LModule.empty : LModule :=
  { globals := [], funcs := [], nextGlobal := 0, nextFunc := 0 }

/-- The `IRBuilder` state: the module plus the emitted instruction stream
of the current insertion point. -/
structure Builder where
  mdl : LModule
  instrs : List LInstr
  nextInstr : Nat
deriving DecidableEq, Repr

/-- An empty builder over an empty module. -/
def Builder.empty : Builder :=
  { mdl := LModule.empty, instrs := [], nextInstr := 0 }

/-- Emit one instruction; its result is a fresh `instrRef`. -/
def Builder.emit (b : Builder) (i : LInstr) : LValue × Builder :=
  (.instrRef b.nextInstr,
   { b with instrs := b.instrs ++ [i], nextInstr := b.nextInstr + 1 })

/-- A generated function, as the emission code sees it: its id and its
number of parameters.  Modelled from the spec: the designated entry
("main") function is created by the compiler outside `src/`; its second
parameter is the layout pointer. -/
structure Fn where
  fnId : Nat
  numArgs : Nat
deriving DecidableEq, Repr

/-- The `RuntimeManager` members created by its constructor: the
process-wide layout-pointer slot (`m_dataPtr`) and the `longjmp`
declaration (`m_longjmp`). -/
structure RuntimeManager where
  m_dataPtr : LValue
  m_longjmp : LValue
deriving DecidableEq, Repr

/-- `RuntimeManager::RuntimeManager` (`Runtime.cpp:104-114`): create a new
global variable `rt`, create the external `longjmp` declaration, then store
the entry function's last argument (`getArgumentList().back()`) into the
global.  Both creations are unconditional, once per constructor run.
`entry` is the function returned by `getMainFunction()` (the constructor
dereferences it unconditionally, so it must exist). -/
def RuntimeManager.construct (entry : Fn) (b : Builder) :
    RuntimeManager × Builder :=
  let gid := b.mdl.nextGlobal
  let fid := b.mdl.nextFunc
  let mdl := { b.mdl with
      globals := b.mdl.globals ++ [gid]
      nextGlobal := gid + 1
      funcs := b.mdl.funcs ++ [{ fid := fid, fname := "longjmp", defined := false }]
      nextFunc := fid + 1 }
  let b := { b with mdl := mdl }
  let dataPtr : LValue := .arg entry.fnId (entry.numArgs - 1)
  let b := (b.emit (.store dataPtr (.globalRef gid))).2
  ({ m_dataPtr := .globalRef gid, m_longjmp := .funcRef fid }, b)

/-- `RuntimeManager::getRuntimePtr` (`Runtime.cpp:116-121`): while emitting
into the designated entry function (`getMainFunction()` non-null, passed
here as `main = some f`) return its second parameter directly; otherwise
emit a load from the shared pointer slot.  `getMainFunction` itself lives
in `CompilerHelper`, outside `src/`; modelled from the spec: it yields the
entry function exactly while emitting into it. -/
def RuntimeManager.getRuntimePtr (mgr : RuntimeManager) (main : Option Fn)
    (b : Builder) : LValue × Builder :=
  match main with
  | some f => (.arg f.fnId 1, b)
  | none => b.emit (.load mgr.m_dataPtr)

/-- `RuntimeManager::getPtr` (`Runtime.cpp:123-127`): GEP
`{0, 0, index}` off the runtime pointer. -/
def RuntimeManager.getPtr (mgr : RuntimeManager) (main : Option Fn)
    (i : RIdx) (b : Builder) : LValue × Builder :=
  let (rt, b) := mgr.getRuntimePtr main b
  b.emit (.gep rt [0, 0, i.val])

/-- `RuntimeManager::get(Index)` (`Runtime.cpp:129-132`): load through
`getPtr`. -/
def RuntimeManager.get (mgr : RuntimeManager) (main : Option Fn)
    (i : RIdx) (b : Builder) : LValue × Builder :=
  let (p, b) := mgr.getPtr main i b
  b.emit (.load p)

/-- `RuntimeManager::set` (`Runtime.cpp:134-137`): store through
`getPtr`. -/
def RuntimeManager.set (mgr : RuntimeManager) (main : Option Fn)
    (i : RIdx) (v : LValue) (b : Builder) : Builder :=
  let (p, b) := mgr.getPtr main i b
  (b.emit (.store v p)).2

/-- `RuntimeManager::registerReturnData` (`Runtime.cpp:139-143`). -/
def RuntimeManager.registerReturnData (mgr : RuntimeManager)
    (main : Option Fn) (off sz : LValue) (b : Builder) : Builder :=
  let b := mgr.set main .ReturnDataOffset off b
  mgr.set main .ReturnDataSize sz b

/-- `RuntimeManager::getCallData` (`Runtime.cpp:172-176`): struct field 1
of the layout, loaded. -/
def RuntimeManager.getCallData (mgr : RuntimeManager) (main : Option Fn)
    (b : Builder) : LValue × Builder :=
  let (rt, b) := mgr.getRuntimePtr main b
  let (p, b) := b.emit (.structGEP rt 1)
  b.emit (.load p)

/-- `RuntimeManager::getCode` (`Runtime.cpp:178-182`): struct field 2 of
the layout, loaded. -/
def RuntimeManager.getCode (mgr : RuntimeManager) (main : Option Fn)
    (b : Builder) : LValue × Builder :=
  let (rt, b) := mgr.getRuntimePtr main b
  let (p, b) := b.emit (.structGEP rt 2)
  b.emit (.load p)

/-- `RuntimeManager::getJmpBuf` (`Runtime.cpp:184-188`): struct field 3 of
the layout, loaded. -/
def RuntimeManager.getJmpBuf (mgr : RuntimeManager) (main : Option Fn)
    (b : Builder) : LValue × Builder :=
  let (rt, b) := mgr.getRuntimePtr main b
  let (p, b) := b.emit (.structGEP rt 3)
  b.emit (.load p)

/-- `RuntimeManager::raiseException` (`Runtime.cpp:145-148`): one
`CreateCall2` of `m_longjmp` with the loaded checkpoint handle and the
status-code constant. -/
def RuntimeManager.raiseException (mgr : RuntimeManager) (main : Option Fn)
    (code : Nat) (b : Builder) : Builder :=
  let (jb, b) := mgr.getJmpBuf main b
  (b.emit (.call2 mgr.m_longjmp jb (.constI32 code))).2

/-- The VM instruction opcodes relevant to `RuntimeManager::get`.  The
`Instruction` enumeration is in `libevm/VM.h`, outside `src/`; modelled
from the spec: the fourteen query opcodes backed by a layout field, plus
representative opcodes with no backing field. -/
inductive Instruction where
  | GAS | ADDRESS | CALLER | ORIGIN | CALLVALUE | CALLDATASIZE
  | GASPRICE | PREVHASH | COINBASE | TIMESTAMP | NUMBER | DIFFICULTY
  | GASLIMIT | CODESIZE
  | STOP | ADD | MUL | SUB | DIV | SSTORE | SLOAD | JUMP | JUMPI
  | PC | MSIZE | RETURN | SUICIDE | PUSH1
deriving DecidableEq, Repr

/-- The opcode-to-field mapping of the `switch` in
`RuntimeManager::get(Instruction)` (`Runtime.cpp:150-170`): `some` for the
fourteen listed cases, `none` for the `default: assert(false)` case. -/
def instToIndex : Instruction → Option RIdx
  | .GAS => some .Gas
  | .ADDRESS => some .Address
  | .CALLER => some .Caller
  | .ORIGIN => some .Origin
  | .CALLVALUE => some .CallValue
  | .CALLDATASIZE => some .CallDataSize
  | .GASPRICE => some .GasPrice
  | .PREVHASH => some .PrevHash
  | .COINBASE => some .CoinBase
  | .TIMESTAMP => some .TimeStamp
  | .NUMBER => some .Number
  | .DIFFICULTY => some .Difficulty
  | .GASLIMIT => some .GasLimit
  | .CODESIZE => some .CodeSize
  | _ => none

/-- `RuntimeManager::get(Instruction)` (`Runtime.cpp:150-170`): for a
mapped opcode, `get` of the corresponding word field; for any other opcode,
the fatal `assert(false)` path. -/
def RuntimeManager.getInst (mgr : RuntimeManager) (main : Option Fn)
    (inst : Instruction) (b : Builder) :
    Except RTError (LValue × Builder) :=
  match instToIndex inst with
  | some i => .ok (mgr.get main i b)
  | none => .error .assertionFailed

/-- `RuntimeManager::setGas` (`Runtime.cpp:195-200`): inlined
`getPtr`+store for the gas field. -/
def RuntimeManager.setGas (mgr : RuntimeManager) (main : Option Fn)
    (g : LValue) (b : Builder) : Builder :=
  let (rt, b) := mgr.getRuntimePtr main b
  let (p, b) := b.emit (.gep rt [0, 0, RIdx.Gas.val])
  (b.emit (.store g p)).2

/-- The denotation of reading an `LValue` that names a global slot, under a
map `σ` giving each global's current content (established, for the layout
slot, by the store the entry function performs at its start). -/
def loadDenote (σ : Nat → LValue) : LValue → Option LValue
  | .globalRef g => some (σ g)
  | _ => none

/-- `k` successive `RuntimeManager` constructions over the same module. -/
def iterConstruct (entry : Fn) : Nat → Builder → Builder
  | 0, b => b
  | k + 1, b => iterConstruct entry k (RuntimeManager.construct entry b).2

/-! ## Theorems -/

/-- Limb decomposition round-trips for values below `2 ^ 256`. -/
lemma llvm2eth_eth2llvm (v : Nat) (h : v < 2 ^ 256) :
    llvm2eth (eth2llvm v) = v := by
  simp only [llvm2eth, eth2llvm]
  omega

/-- A truncated value round-trips through the marshalling pair. -/
lemma llvm2eth_eth2llvm_mod (x : Nat) :
    llvm2eth (eth2llvm (x % 2 ^ 64)) = x % 2 ^ 64 := by
  have hx : x % 2 ^ 64 < 2 ^ 64 := Nat.mod_lt _ (by norm_num)
  exact llvm2eth_eth2llvm _ (lt_trans hx (by norm_num))

/-- The result of `getReturnData` depends on the stored offset and size
only through their `size_t` truncations. -/
lemma getReturnData_congr (d d' : RuntimeData) (mem : List Nat)
    (h1 : llvm2eth (d.elems .ReturnDataOffset) % sizeTMod =
          llvm2eth (d'.elems .ReturnDataOffset) % sizeTMod)
    (h2 : llvm2eth (d.elems .ReturnDataSize) % sizeTMod =
          llvm2eth (d'.elems .ReturnDataSize) % sizeTMod) :
    Runtime.getReturnData ⟨d, mem⟩ = Runtime.getReturnData ⟨d', mem⟩ := by
  simp only [Runtime.getReturnData, h1, h2]

/-- C3: for every representable 256-bit integer `v`, converting to the
in-layout word representation and back yields `v` exactly:
`fromLayoutWord (toLayoutWord v) = v`. -/
theorem c3_marshalling_roundtrip (v : Nat) (h : v < 2 ^ 256) :
    llvm2eth (eth2llvm v) = v :=
  llvm2eth_eth2llvm v h

/-- Witness for C3 at the concrete value `12345`. -/
theorem c3_marshalling_roundtrip_witness :
    12345 < 2 ^ 256 ∧ llvm2eth (eth2llvm 12345) = 12345 :=
  ⟨by norm_num, c3_marshalling_roundtrip 12345 (by norm_num)⟩

/-- C7: for every 160-bit address `a`, `fromAddress a` zero-extends: the
low 160 bits reproduce `a` exactly and the high 96 bits are zero. -/
theorem c7_fromAddress_zero_extends (a : Nat) (h : a < 2 ^ 160) :
    fromAddress a % 2 ^ 160 = a ∧ fromAddress a / 2 ^ 160 = 0 := by
  simp only [fromAddress]
  omega

/-- Witness for C7 at the concrete address `123456789`. -/
theorem c7_fromAddress_zero_extends_witness :
    123456789 < 2 ^ 160 ∧
      fromAddress 123456789 % 2 ^ 160 = 123456789 ∧
      fromAddress 123456789 / 2 ^ 160 = 0 :=
  ⟨by norm_num, c7_fromAddress_zero_extends 123456789 (by norm_num)⟩

/-- A runtime whose stored return-data range (offset 0, size 1) exceeds its
working memory buffer (length 0). -/
def c1FailRuntime : Runtime :=
  { m_data :=
      { elems := fun i => if i = RIdx.ReturnDataSize then eth2llvm 1 else eth2llvm 0
        callData := 0
        code := 0
        jmpBuf := 0 }
    m_memory := [] }

/-- C1 (code bug): on the failing input — stored offset `0`, stored size
`1`, working memory of length `0`, so `O + S > L` — `Runtime::getReturnData`
takes the fatal `assert(offset + size <= m_memory.size())` path instead of
returning the empty view the claim (and the source's own `TODO` comment)
requires. -/
theorem c1_getReturnData_asserts_instead_of_empty :
    c1FailRuntime.getReturnData = .error .assertionFailed ∧
      c1FailRuntime.getReturnData ≠ .ok [] := by
  constructor
  · rfl
  · intro h
    simp [c1FailRuntime, Runtime.getReturnData, eth2llvm, llvm2eth,
      sizeTMod, sizeTBits] at h

/-- A runtime whose stored return-data offset is `2 ^ 64` (not
representable in a 64-bit `size_t`) with stored size `2` and a working
memory of two bytes. -/
def c10TruncRuntime : Runtime :=
  { m_data :=
      { elems := fun i =>
          if i = RIdx.ReturnDataOffset then eth2llvm (2 ^ 64)
          else if i = RIdx.ReturnDataSize then eth2llvm 2
          else eth2llvm 0
        callData := 0
        code := 0
        jmpBuf := 0 }
    m_memory := [7, 9] }

/-- C10: `getReturnData` reduces the stored 256-bit offset and size modulo
`2 ^ 64` (the host `size_t` width) before the range check: replacing the
stored values by their truncations never changes the result, and on a
concrete runtime whose stored offset is `2 ^ 64` — so the untruncated range
`[2 ^ 64, 2 ^ 64 + 2)` lies far outside the two-byte buffer — the range
check passes and the view is computed from the truncated offset `0`. -/
theorem c10_getReturnData_truncates :
    (∀ (d : RuntimeData) (mem : List Nat),
        Runtime.getReturnData ⟨d, mem⟩ =
          Runtime.getReturnData
            ⟨(d.setElem .ReturnDataOffset
                (eth2llvm (llvm2eth (d.elems .ReturnDataOffset) % 2 ^ 64))).setElem
                .ReturnDataSize
                (eth2llvm (llvm2eth (d.elems .ReturnDataSize) % 2 ^ 64)), mem⟩) ∧
      2 ^ 64 ≤ llvm2eth (c10TruncRuntime.m_data.elems .ReturnDataOffset) ∧
      c10TruncRuntime.m_memory.length <
        llvm2eth (c10TruncRuntime.m_data.elems .ReturnDataOffset) +
          llvm2eth (c10TruncRuntime.m_data.elems .ReturnDataSize) ∧
      c10TruncRuntime.getReturnData = .ok [7, 9] := by
  refine ⟨fun d mem => ?_, ?_, ?_, ?_⟩
  · apply getReturnData_congr
    · have e : ((d.setElem .ReturnDataOffset
          (eth2llvm (llvm2eth (d.elems .ReturnDataOffset) % 2 ^ 64))).setElem
          .ReturnDataSize
          (eth2llvm (llvm2eth (d.elems .ReturnDataSize) % 2 ^ 64))).elems
            .ReturnDataOffset =
          eth2llvm (llvm2eth (d.elems .ReturnDataOffset) % 2 ^ 64) := by
        simp [RuntimeData.setElem]
      rw [e, llvm2eth_eth2llvm_mod]
      simp only [sizeTMod, sizeTBits]
      omega
    · have e : ((d.setElem .ReturnDataOffset
          (eth2llvm (llvm2eth (d.elems .ReturnDataOffset) % 2 ^ 64))).setElem
          .ReturnDataSize
          (eth2llvm (llvm2eth (d.elems .ReturnDataSize) % 2 ^ 64))).elems
            .ReturnDataSize =
          eth2llvm (llvm2eth (d.elems .ReturnDataSize) % 2 ^ 64) := by
        simp [RuntimeData.setElem]
      rw [e, llvm2eth_eth2llvm_mod]
      simp only [sizeTMod, sizeTBits]
      omega
  · simp [c10TruncRuntime, eth2llvm, llvm2eth]
  · simp [c10TruncRuntime, eth2llvm, llvm2eth]
  · rfl

/-- C4: for every `(gas, environment, checkpoint)` input (and any
indeterminate pre-state `init` of the data block), constructing `Runtime`
populates all fourteen named word fields from the arguments, sets the
call-data and code base pointers from the environment's buffers, stores the
checkpoint handle, and leaves the two return-data word fields exactly as
they were (an unspecified placeholder).  The constructor is a total
function, so construction never fails. -/
theorem c4_runtime_constructor_populates (gas : Nat) (ext : ExtVMFace)
    (jmpBuf : Nat) (init : RuntimeData) (mem : List Nat) :
    (Runtime.construct gas ext jmpBuf init mem).m_data.elems .Gas = eth2llvm gas ∧
    (Runtime.construct gas ext jmpBuf init mem).m_data.elems .Address =
      eth2llvm (fromAddress ext.myAddress) ∧
    (Runtime.construct gas ext jmpBuf init mem).m_data.elems .Caller =
      eth2llvm (fromAddress ext.caller) ∧
    (Runtime.construct gas ext jmpBuf init mem).m_data.elems .Origin =
      eth2llvm (fromAddress ext.origin) ∧
    (Runtime.construct gas ext jmpBuf init mem).m_data.elems .CallValue =
      eth2llvm ext.value ∧
    (Runtime.construct gas ext jmpBuf init mem).m_data.elems .CallDataSize =
      eth2llvm ext.data.length ∧
    (Runtime.construct gas ext jmpBuf init mem).m_data.elems .GasPrice =
      eth2llvm ext.gasPrice ∧
    (Runtime.construct gas ext jmpBuf init mem).m_data.elems .PrevHash =
      eth2llvm ext.previousBlock.hash ∧
    (Runtime.construct gas ext jmpBuf init mem).m_data.elems .CoinBase =
      eth2llvm (fromAddress ext.currentBlock.coinbaseAddress) ∧
    (Runtime.construct gas ext jmpBuf init mem).m_data.elems .TimeStamp =
      eth2llvm ext.currentBlock.timestamp ∧
    (Runtime.construct gas ext jmpBuf init mem).m_data.elems .Number =
      eth2llvm ext.currentBlock.number ∧
    (Runtime.construct gas ext jmpBuf init mem).m_data.elems .Difficulty =
      eth2llvm ext.currentBlock.difficulty ∧
    (Runtime.construct gas ext jmpBuf init mem).m_data.elems .GasLimit =
      eth2llvm ext.currentBlock.gasLimit ∧
    (Runtime.construct gas ext jmpBuf init mem).m_data.elems .CodeSize =
      eth2llvm ext.code.length ∧
    (Runtime.construct gas ext jmpBuf init mem).m_data.callData = ext.dataPtr ∧
    (Runtime.construct gas ext jmpBuf init mem).m_data.code = ext.codePtr ∧
    (Runtime.construct gas ext jmpBuf init mem).m_data.jmpBuf = jmpBuf ∧
    (Runtime.construct gas ext jmpBuf init mem).m_data.elems .ReturnDataOffset =
      init.elems .ReturnDataOffset ∧
    (Runtime.construct gas ext jmpBuf init mem).m_data.elems .ReturnDataSize =
      init.elems .ReturnDataSize :=
  ⟨rfl, rfl, rfl, rfl, rfl, rfl, rfl, rfl, rfl, rfl, rfl, rfl, rfl, rfl,
   rfl, rfl, rfl, rfl, rfl⟩

/-- C5: the layout struct built by `RuntimeData::getType` is the word array
followed by exactly three byte-pointer slots; for any array length `n` and
pointer width `P` the three pointer slots sit at byte offsets equal to the
word array's size plus `0`, `1` and `2` pointer widths, independently of
any field values (the offsets are functions of the type alone); and the
accessors `getCallData`, `getCode` and `getJmpBuf` address struct fields
`1`, `2` and `3` — exactly those slots, in that order. -/
theorem c5_layout_pointer_slots (n P : Nat) (mgr : RuntimeManager)
    (f : Fn) (b : Builder) :
    (runtimeTypeFields n).drop 1 = [.bytePtr, .bytePtr, .bytePtr] ∧
    (runtimeTypeFields n).length = 4 ∧
    structOffset P (runtimeTypeFields n) 1 = slotSize P (.wordArr n) ∧
    structOffset P (runtimeTypeFields n) 2 = slotSize P (.wordArr n) + P ∧
    structOffset P (runtimeTypeFields n) 3 = slotSize P (.wordArr n) + 2 * P ∧
    (mgr.getCallData (some f) b).2.instrs =
      b.instrs ++ [.structGEP (.arg f.fnId 1) 1, .load (.instrRef b.nextInstr)] ∧
    (mgr.getCode (some f) b).2.instrs =
      b.instrs ++ [.structGEP (.arg f.fnId 1) 2, .load (.instrRef b.nextInstr)] ∧
    (mgr.getJmpBuf (some f) b).2.instrs =
      b.instrs ++ [.structGEP (.arg f.fnId 1) 3, .load (.instrRef b.nextInstr)] := by
  refine ⟨rfl, rfl, ?_, ?_, ?_, ?_, ?_, ?_⟩
  · simp [structOffset, runtimeTypeFields, slotSize]
  · simp [structOffset, runtimeTypeFields, slotSize]
  · simp [structOffset, runtimeTypeFields, slotSize]; ring
  · simp [RuntimeManager.getCallData, RuntimeManager.getRuntimePtr, Builder.emit]
  · simp [RuntimeManager.getCode, RuntimeManager.getRuntimePtr, Builder.emit]
  · simp [RuntimeManager.getJmpBuf, RuntimeManager.getRuntimePtr, Builder.emit]

/-- C2: `RuntimeManager::get(Instruction)` maps each of the fourteen listed
opcodes to exactly its corresponding named word field — the emitted code is
a GEP carrying that field's index followed by a load of it, and nothing
else — while every opcode absent from the mapping takes the fatal
`assert(false)` path, returning neither a field read nor a null value. -/
theorem c2_opcode_field_mapping (mgr : RuntimeManager) (f : Fn)
    (b : Builder) (inst : Instruction) :
    (mgr.getInst (some f) inst b =
      match instToIndex inst with
      | some i =>
          .ok (.instrRef (b.nextInstr + 1),
            { b with
                instrs := b.instrs ++
                  [.gep (.arg f.fnId 1) [0, 0, i.val], .load (.instrRef b.nextInstr)]
                nextInstr := b.nextInstr + 2 })
      | none => .error .assertionFailed) ∧
    instToIndex .GAS = some .Gas ∧
    instToIndex .ADDRESS = some .Address ∧
    instToIndex .CALLER = some .Caller ∧
    instToIndex .ORIGIN = some .Origin ∧
    instToIndex .CALLVALUE = some .CallValue ∧
    instToIndex .CALLDATASIZE = some .CallDataSize ∧
    instToIndex .GASPRICE = some .GasPrice ∧
    instToIndex .PREVHASH = some .PrevHash ∧
    instToIndex .COINBASE = some .CoinBase ∧
    instToIndex .TIMESTAMP = some .TimeStamp ∧
    instToIndex .NUMBER = some .Number ∧
    instToIndex .DIFFICULTY = some .Difficulty ∧
    instToIndex .GASLIMIT = some .GasLimit ∧
    instToIndex .CODESIZE = some .CodeSize ∧
    instToIndex .STOP = none ∧
    instToIndex .JUMP = none ∧
    instToIndex .SUICIDE = none := by
  refine ⟨?_, rfl, rfl, rfl, rfl, rfl, rfl, rfl, rfl, rfl, rfl, rfl, rfl,
    rfl, rfl, rfl, rfl, rfl⟩
  cases inst <;>
    simp [RuntimeManager.getInst, instToIndex, RuntimeManager.get,
      RuntimeManager.getPtr, RuntimeManager.getRuntimePtr, Builder.emit]

/-- C9: `raiseException(code)` emits exactly one call instruction; its
callee is the `longjmp` member and its two arguments are the checkpoint
handle loaded via a struct-GEP of field `3` (the third trailing pointer
slot of the layout) and the `i32` constant for `code`.  The `longjmp`
function referenced is created by the constructor as an external
declaration (`defined = false`): declared, never defined, in this
component. -/
theorem c9_raiseException_calls_longjmp (mgr : RuntimeManager) (f : Fn)
    (b : Builder) (code : Nat) (entry : Fn) (b0 : Builder) :
    (mgr.raiseException (some f) code b).instrs = b.instrs ++
      [.structGEP (.arg f.fnId 1) 3,
       .load (.instrRef b.nextInstr),
       .call2 mgr.m_longjmp (.instrRef (b.nextInstr + 1)) (.constI32 code)] ∧
    (([.structGEP (.arg f.fnId 1) 3,
       .load (.instrRef b.nextInstr),
       .call2 mgr.m_longjmp (.instrRef (b.nextInstr + 1)) (.constI32 code)] :
        List LInstr).filter LInstr.isCall).length = 1 ∧
    (RuntimeManager.construct entry b0).1.m_longjmp =
      .funcRef b0.mdl.nextFunc ∧
    (RuntimeManager.construct entry b0).2.mdl.funcs = b0.mdl.funcs ++
      [{ fid := b0.mdl.nextFunc, fname := "longjmp", defined := false }] := by
  refine ⟨?_, rfl, rfl, rfl⟩
  simp [RuntimeManager.raiseException, RuntimeManager.getJmpBuf,
    RuntimeManager.getRuntimePtr, Builder.emit]

/-- Two successive `RuntimeManager` constructions over one fresh
compilation unit. -/
def c8TwiceBuilder : Builder := iterConstruct ⟨0, 2⟩ 2 Builder.empty

/-- C8 counterexample: after two `RuntimeManager` constructions in the same
compilation unit there are two layout-pointer slots and two `longjmp`
declarations, not one — refuting the claim that the slot is created exactly
once, the declaration at most once, lazily, and reused by subsequent
constructions. -/
theorem c8_construct_not_shared_counterexample :
    c8TwiceBuilder.mdl.globals.length = 2 ∧
    (c8TwiceBuilder.mdl.funcs.filter (fun d => d.fname = "longjmp")).length = 2 ∧
    ¬ c8TwiceBuilder.mdl.globals.length = 1 ∧
    ¬ (c8TwiceBuilder.mdl.funcs.filter
        (fun d => d.fname = "longjmp")).length ≤ 1 := by
  refine ⟨rfl, ?_, by decide, ?_⟩
  · simp [c8TwiceBuilder, iterConstruct, RuntimeManager.construct,
      Builder.emit, Builder.empty, LModule.empty]
  · simp [c8TwiceBuilder, iterConstruct, RuntimeManager.construct,
      Builder.emit, Builder.empty, LModule.empty]

/-- C8 (amended): every `RuntimeManager` construction unconditionally
creates one fresh layout-pointer slot and one fresh declaration of the
external abort primitive; after `k` constructions in the same compilation
unit there are `k` more slots and `k` more `longjmp` declarations than
before — creation is eager and per-construction, not lazy or shared. -/
theorem c8_construct_creates_per_construction (entry : Fn) (k : Nat)
    (b : Builder) :
    (iterConstruct entry k b).mdl.globals.length =
      b.mdl.globals.length + k ∧
    ((iterConstruct entry k b).mdl.funcs.filter
        (fun d => d.fname = "longjmp")).length =
      (b.mdl.funcs.filter (fun d => d.fname = "longjmp")).length + k := by
  induction k generalizing b with
  | zero => simp [iterConstruct]
  | succ k ih =>
    have h := ih (RuntimeManager.construct entry b).2
    simp only [iterConstruct] at h ⊢
    refine ⟨?_, ?_⟩
    · rw [h.1]
      simp [RuntimeManager.construct, Builder.emit]
      omega
    · rw [h.2]
      simp [RuntimeManager.construct, Builder.emit, List.filter_append]
      omega

/-- C6: `getRuntimePtr` has exactly two addressing paths denoting the same
layout pointer.  With the entry function `f` (two parameters, the layout
pointer second, per the spec's entry-function contract), the constructor
stores `f`'s second parameter into the shared slot; while emitting into `f`
the accessor returns that second parameter directly without emitting
anything; while emitting elsewhere it emits exactly a load of the shared
slot; and under any global-content map `σ` consistent with the emitted
store, the loaded value equals the value the entry path returns. -/
theorem c6_getRuntimePtr_paths_agree (f : Fn) (b : Builder)
    (σ : Nat → LValue) (hf : f.numArgs = 2)
    (hσ : ∀ g v,
      (RuntimeManager.construct f b).2.instrs =
        b.instrs ++ [.store v (.globalRef g)] → σ g = v) :
    (RuntimeManager.construct f b).2.instrs =
      b.instrs ++ [.store (.arg f.fnId 1)
        (RuntimeManager.construct f b).1.m_dataPtr] ∧
    ((RuntimeManager.construct f b).1.getRuntimePtr (some f)
        (RuntimeManager.construct f b).2).1 = .arg f.fnId 1 ∧
    ((RuntimeManager.construct f b).1.getRuntimePtr (some f)
        (RuntimeManager.construct f b).2).2 =
      (RuntimeManager.construct f b).2 ∧
    ((RuntimeManager.construct f b).1.getRuntimePtr none
        (RuntimeManager.construct f b).2).2.instrs =
      (RuntimeManager.construct f b).2.instrs ++
        [.load (RuntimeManager.construct f b).1.m_dataPtr] ∧
    loadDenote σ (RuntimeManager.construct f b).1.m_dataPtr =
      some ((RuntimeManager.construct f b).1.getRuntimePtr (some f)
        (RuntimeManager.construct f b).2).1 := by
  have hstore : (RuntimeManager.construct f b).2.instrs =
      b.instrs ++ [.store (.arg f.fnId 1) (.globalRef b.mdl.nextGlobal)] := by
    simp [RuntimeManager.construct, Builder.emit, hf]
  have hdp : (RuntimeManager.construct f b).1.m_dataPtr =
      .globalRef b.mdl.nextGlobal := rfl
  refine ⟨by rw [hdp]; exact hstore, rfl, rfl, ?_, ?_⟩
  · simp [RuntimeManager.getRuntimePtr, Builder.emit]
  · have hval := hσ b.mdl.nextGlobal (.arg f.fnId 1) hstore
    simp [RuntimeManager.getRuntimePtr, hdp, loadDenote, hval]

/-- Witness for C6: the entry function with id `0` and two parameters, an
empty builder, and the global-content map that holds the entry's second
parameter. -/
theorem c6_getRuntimePtr_paths_agree_witness :
    loadDenote (fun _ => .arg 0 1)
        (RuntimeManager.construct ⟨0, 2⟩ Builder.empty).1.m_dataPtr =
      some ((RuntimeManager.construct ⟨0, 2⟩ Builder.empty).1.getRuntimePtr
        (some ⟨0, 2⟩) (RuntimeManager.construct ⟨0, 2⟩ Builder.empty).2).1 :=
  (c6_getRuntimePtr_paths_agree ⟨0, 2⟩ Builder.empty (fun _ => .arg 0 1)
    rfl (fun g v h => by
      have hv : LInstr.store (.arg 0 1) (.globalRef 0) =
          LInstr.store v (.globalRef g) := by
        simpa [RuntimeManager.construct, Builder.emit, Builder.empty,
          LModule.empty] using h
      cases hv
      rfl)).2.2.2.2

end EvmjitRuntime
